import Mathlib

/-!
Verification of `generateWindowsContainerConfig` from
`pkg/kubelet/kuberuntime/kuberuntime_container_windows.go`.

The Go function builds a `runtimeapi.WindowsContainerConfig` from a
container's CPU request/limit (millicores), memory limit (bytes), the
Hyper-V isolation flag taken from the pod annotations, the host CPU count
(`sysinfo.NumCPU()`), the GMSA feature gate, the effective security
context, and the supplied username.  All quantities are Kubernetes
resource quantities, validated non-negative by the API, so the `int64`
fields are modelled as `Nat`; Go's truncating division on non-negative
`int64` agrees with `Nat` division.  `cpuLimit.IsZero()` holds exactly
when the limit's milli-value is `0`.
-/

/-- Output resource record, after `runtimeapi.WindowsContainerResources`
(`CpuShares`, `CpuCount`, `CpuMaximum`, `MemoryLimitInBytes`, all `int64`,
zero-initialised by the Go struct literal). -/
structure WindowsContainerResources where
  CpuShares : Nat := 0
  CpuCount : Nat := 0
  CpuMaximum : Nat := 0
  MemoryLimitInBytes : Nat := 0
  deriving DecidableEq, Repr

/-- Output security record, after `runtimeapi.WindowsContainerSecurityContext`
(`RunAsUsername`, `CredentialSpec`, zero-initialised to empty strings). -/
structure WindowsContainerSecurityContext where
  RunAsUsername : String := ""
  CredentialSpec : String := ""
  deriving DecidableEq, Repr

/-- Output record, after `runtimeapi.WindowsContainerConfig`. -/
structure WindowsContainerConfig where
  Resources : WindowsContainerResources := {}
  SecurityContext : WindowsContainerSecurityContext := {}
  deriving DecidableEq, Repr

/-- The Windows-specific options of the effective security context
(`v1.WindowsSecurityContextOptions`): both fields are nullable pointers in Go,
modelled as `Option`. -/
structure WindowsSecurityContextOptions where
  GMSACredentialSpec : Option String := none
  RunAsUserName : Option String := none
  deriving DecidableEq, Repr

/-- The part of the effective security context
(`securitycontext.DetermineEffectiveSecurityContext(pod, container)`) read by
`generateWindowsContainerConfig`: the nullable numeric `RunAsUser` and the
nullable `WindowsOptions`. -/
structure SecurityContext where
  RunAsUser : Option Int := none
  WindowsOptions : Option WindowsSecurityContextOptions := none
  deriving DecidableEq, Repr

/-- The single error produced by `generateWindowsContainerConfig`:
`fmt.Errorf` for a numeric run-as uid, which is not supported on Windows. -/
inductive GenError where
  | runAsUserNotSupported (uid : Int) : GenError
  deriving DecidableEq, Repr

/-- Decides whether a result of `generateWindowsContainerConfig` is the error
case. -/
def isErrorResult : Except GenError WindowsContainerConfig → Bool
  | .error _ => true
  | .ok _ => false

/-- Hyper-V virtual processor count: `int64(cpuLimit.MilliValue()+999) / 1000`
in the source, i.e. millicores rounded up to whole cores. -/
def hypervCpuCount (cpuLimitMilli : Nat) : Nat :=
  (cpuLimitMilli + 999) / 1000

/-- Base CPU maximum: `10000 * cpuLimit.MilliValue() / int64(sysinfo.NumCPU()) / 1000`
in the source (left-to-right truncating integer division). -/
def cpuMaximumBase (cpuLimitMilli hostCPUCount : Nat) : Nat :=
  10000 * cpuLimitMilli / hostCPUCount / 1000

/-- Hyper-V override of the CPU maximum:
`cpuLimit.MilliValue() / cpuCount * 10000 / 1000` in the source
(left-to-right truncating integer division). -/
def hypervCpuMaximum (cpuLimitMilli cpuCount : Nat) : Nat :=
  cpuLimitMilli / cpuCount * 10000 / 1000

/-- The value of the local variable `cpuMaximum` just before the
`ensure cpuMaximum is in range [1, 10000]` clamp in the source: the base
formula, overridden in the Hyper-V branch when the computed `cpuCount` is
non-zero. -/
def cpuMaximumPreClamp (cpuLimitMilli hostCPUCount : Nat)
    (isolatedByHyperv : Bool) : Nat :=
  if isolatedByHyperv then
    if hypervCpuCount cpuLimitMilli ≠ 0 then
      hypervCpuMaximum cpuLimitMilli (hypervCpuCount cpuLimitMilli)
    else cpuMaximumBase cpuLimitMilli hostCPUCount
  else cpuMaximumBase cpuLimitMilli hostCPUCount

/-- The clamp `if cpuMaximum < 1 ... else if cpuMaximum > 10000 ...` from the
source, forcing the value into `[1, 10000]`. -/
def clampCpuMaximum (cpuMaximum : Nat) : Nat :=
  if cpuMaximum < 1 then 1
  else if cpuMaximum > 10000 then 10000
  else cpuMaximum

/-- The CPU shares computed before the mutual-exclusion precedence step:
`milliCPUToShares(cpuLimit.MilliValue(), isolatedByHyperv)`, falling back to
`milliCPUToShares(cpuRequest.MilliValue(), isolatedByHyperv)` when the first
result is zero.  The `milliCPUToShares` helper lives outside this file and is
passed as a parameter. -/
def cpuSharesPre (milliCPUToShares : Nat → Bool → Nat)
    (cpuLimitMilli cpuRequestMilli : Nat) (isolatedByHyperv : Bool) : Nat :=
  let cpuShares := milliCPUToShares cpuLimitMilli isolatedByHyperv
  if cpuShares = 0 then milliCPUToShares cpuRequestMilli isolatedByHyperv
  else cpuShares

/-- Modelled from the spec: the repository's millicore-to-shares helper
`milliCPUToShares` is defined outside this file; the spec treats it as an
external, already-specified utility whose exact curve is out of scope, fixes
that it maps `0` to `0` (no fallback value fabricated), and in its worked
example takes shares computed from a 2500-millicore limit to be positive.
This representative maps `milliCPU` millicores to `1024 * milliCPU / 1000`
shares (1024 shares per core), which satisfies those constraints. -/
def milliCPUToSharesModel (milliCPU : Nat) (_isolatedByHyperv : Bool) : Nat :=
  1024 * milliCPU / 1000

/-- The `wc.Resources` fields assigned before the mutual-exclusion precedence
block of the source: `CpuCount` and `CpuMaximum` are set only when the CPU
limit is non-zero (`!cpuLimit.IsZero()`), `CpuCount` only in the Hyper-V
branch, `CpuMaximum` after the clamp; `CpuShares` is always set;
`MemoryLimitInBytes` is assigned later. -/
def resourcesPrePrecedence (milliCPUToShares : Nat → Bool → Nat)
    (cpuRequestMilli cpuLimitMilli hostCPUCount : Nat)
    (isolatedByHyperv : Bool) : WindowsContainerResources where
  CpuCount :=
    if cpuLimitMilli ≠ 0 then
      if isolatedByHyperv then hypervCpuCount cpuLimitMilli else 0
    else 0
  CpuShares :=
    cpuSharesPre milliCPUToShares cpuLimitMilli cpuRequestMilli isolatedByHyperv
  CpuMaximum :=
    if cpuLimitMilli ≠ 0 then
      clampCpuMaximum (cpuMaximumPreClamp cpuLimitMilli hostCPUCount isolatedByHyperv)
    else 0
  MemoryLimitInBytes := 0

/-- The `if !isolatedByHyperv` mutual-exclusion block of the source: on
Windows Server Containers the order of precedence is `CpuCount` first, then
`CpuShares`, and `CpuMaximum` last; lower-precedence non-zero fields are
zeroed (with a log warning, not modelled). -/
def applyPrecedence (isolatedByHyperv : Bool)
    (r : WindowsContainerResources) : WindowsContainerResources :=
  if isolatedByHyperv then r
  else if r.CpuCount > 0 then
    let r1 := if r.CpuShares > 0 then { r with CpuShares := 0 } else r
    if r1.CpuMaximum > 0 then { r1 with CpuMaximum := 0 } else r1
  else if r.CpuShares > 0 then
    if r.CpuMaximum > 0 then { r with CpuMaximum := 0 } else r
  else r

/-- The complete `wc.Resources` record: pre-precedence fields, then the
mutual-exclusion precedence step, then `MemoryLimitInBytes` assigned when the
memory limit is non-zero. -/
def windowsContainerResources (milliCPUToShares : Nat → Bool → Nat)
    (cpuRequestMilli cpuLimitMilli memoryLimitBytes hostCPUCount : Nat)
    (isolatedByHyperv : Bool) : WindowsContainerResources :=
  let r := applyPrecedence isolatedByHyperv
    (resourcesPrePrecedence milliCPUToShares cpuRequestMilli cpuLimitMilli
      hostCPUCount isolatedByHyperv)
  if memoryLimitBytes ≠ 0 then { r with MemoryLimitInBytes := memoryLimitBytes }
  else r

/-- The security-context part of `generateWindowsContainerConfig`: fail when
the effective context carries a numeric `RunAsUser`; otherwise set
`RunAsUsername` from the supplied username when non-empty, set
`CredentialSpec` when the GMSA feature gate is enabled and the effective
context carries a credential spec, and finally override `RunAsUsername` with
the Windows-specific `RunAsUserName` option when present. -/
def resolveSecurityContext (gmsaEnabled : Bool) (effectiveSc : SecurityContext)
    (username : String) : Except GenError WindowsContainerSecurityContext :=
  match effectiveSc.RunAsUser with
  | some uid => .error (GenError.runAsUserNotSupported uid)
  | none =>
    let ctx0 : WindowsContainerSecurityContext := {}
    let ctx1 := if username ≠ "" then { ctx0 with RunAsUsername := username }
      else ctx0
    let ctx2 :=
      match effectiveSc.WindowsOptions with
      | some wo =>
        if gmsaEnabled then
          match wo.GMSACredentialSpec with
          | some cs => { ctx1 with CredentialSpec := cs }
          | none => ctx1
        else ctx1
      | none => ctx1
    let ctx3 :=
      match effectiveSc.WindowsOptions with
      | some wo =>
        match wo.RunAsUserName with
        | some r => { ctx2 with RunAsUsername := r }
        | none => ctx2
      | none => ctx2
    .ok ctx3

/-- The whole of `generateWindowsContainerConfig`: the resource record is
built unconditionally, and the call fails exactly when the security-context
resolution fails. -/
def generateWindowsContainerConfig (milliCPUToShares : Nat → Bool → Nat)
    (cpuRequestMilli cpuLimitMilli memoryLimitBytes hostCPUCount : Nat)
    (isolatedByHyperv gmsaEnabled : Bool) (effectiveSc : SecurityContext)
    (username : String) : Except GenError WindowsContainerConfig :=
  match resolveSecurityContext gmsaEnabled effectiveSc username with
  | .error e => .error e
  | .ok sctx =>
    .ok { Resources := windowsContainerResources milliCPUToShares
            cpuRequestMilli cpuLimitMilli memoryLimitBytes hostCPUCount
            isolatedByHyperv
          SecurityContext := sctx }

/-- At most one of the three CPU controls of a resource record is non-zero
(at least two of them are zero). -/
def atMostOneCpuControl (r : WindowsContainerResources) : Prop :=
  (r.CpuCount = 0 ∧ r.CpuShares = 0) ∨ (r.CpuCount = 0 ∧ r.CpuMaximum = 0)
    ∨ (r.CpuShares = 0 ∧ r.CpuMaximum = 0)

instance (r : WindowsContainerResources) : Decidable (atMostOneCpuControl r) := by
  unfold atMostOneCpuControl; infer_instance

/-- Spec-worded Hyper-V cpuMaximum formula, for comparison with the source's
`hypervCpuMaximum`: the exact product `cpuLimitMilli * 10000` followed by one
integer division by `cpuCount * 1000`. -/
def specHypervCpuMaximum (cpuLimitMilli cpuCount : Nat) : Nat :=
  cpuLimitMilli * 10000 / (cpuCount * 1000)

/-- Variant of `applyPrecedence` with the `CpuCount > 0` branch deleted, used
to state that this branch is dead under Default isolation. -/
def applyPrecedenceNoCountBranch (isolatedByHyperv : Bool)
    (r : WindowsContainerResources) : WindowsContainerResources :=
  if isolatedByHyperv then r
  else if r.CpuShares > 0 then
    if r.CpuMaximum > 0 then { r with CpuMaximum := 0 } else r
  else r

example : cpuMaximumBase 2500 4 = 6250 := by decide
example : hypervCpuCount 2500 = 3 := by decide
example : hypervCpuMaximum 2500 3 = 8330 := by decide
example : specHypervCpuMaximum 2500 3 = 8333 := by decide

/-! Helper lemmas about the arithmetic stages. -/

theorem clampCpuMaximum_mem (c : Nat) :
    1 ≤ clampCpuMaximum c ∧ clampCpuMaximum c ≤ 10000 := by
  unfold clampCpuMaximum
  split
  · omega
  · split <;> omega

theorem clampCpuMaximum_pos (c : Nat) : 0 < clampCpuMaximum c :=
  (clampCpuMaximum_mem c).1

theorem clampCpuMaximum_eq_self (c : Nat) (h1 : 1 ≤ c) (h2 : c ≤ 10000) :
    clampCpuMaximum c = c := by
  unfold clampCpuMaximum
  split
  · omega
  · split <;> omega

theorem hypervCpuCount_pos (lim : Nat) (h : 0 < lim) :
    0 < hypervCpuCount lim := by
  unfold hypervCpuCount; omega

theorem hypervCpuCount_le (lim : Nat) (h : 0 < lim) :
    hypervCpuCount lim ≤ lim := by
  unfold hypervCpuCount; omega

theorem le_thousand_mul_hypervCpuCount (lim : Nat) :
    lim ≤ 1000 * hypervCpuCount lim := by
  unfold hypervCpuCount; omega

theorem hypervCpuCount_is_ceil (lim : Nat) (h : 0 < lim) :
    lim ≤ 1000 * hypervCpuCount lim
      ∧ 1000 * hypervCpuCount lim < lim + 1000 := by
  unfold hypervCpuCount; omega

theorem hypervCpuMaximum_bounds (lim : Nat) (h : 0 < lim) :
    10 ≤ hypervCpuMaximum lim (hypervCpuCount lim)
      ∧ hypervCpuMaximum lim (hypervCpuCount lim) ≤ 10000 := by
  have hc : 0 < hypervCpuCount lim := hypervCpuCount_pos lim h
  have hle : hypervCpuCount lim ≤ lim := hypervCpuCount_le lim h
  have hub : lim ≤ 1000 * hypervCpuCount lim := le_thousand_mul_hypervCpuCount lim
  have h1 : 1 ≤ lim / hypervCpuCount lim := (Nat.one_le_div_iff hc).mpr hle
  have h2 : lim / hypervCpuCount lim < 1001 := by
    rw [Nat.div_lt_iff_lt_mul hc]
    omega
  unfold hypervCpuMaximum
  omega

/-! Helper lemmas about the structural stages. -/

theorem generate_ok_resources (f : Nat → Bool → Nat) (req lim mem host : Nat)
    (hv gmsa : Bool) (sc : SecurityContext) (uname : String)
    (cfg : WindowsContainerConfig)
    (hok : generateWindowsContainerConfig f req lim mem host hv gmsa sc uname
      = .ok cfg) :
    cfg.Resources = windowsContainerResources f req lim mem host hv := by
  unfold generateWindowsContainerConfig at hok
  cases h : resolveSecurityContext gmsa sc uname with
  | error e => rw [h] at hok; simp at hok
  | ok s =>
    rw [h] at hok
    simp only [Except.ok.injEq] at hok
    subst hok
    rfl

theorem windowsContainerResources_default_eq (f : Nat → Bool → Nat)
    (req lim mem host : Nat) :
    windowsContainerResources f req lim mem host false
      = { CpuShares := cpuSharesPre f lim req false,
          CpuCount := 0,
          CpuMaximum :=
            if 0 < cpuSharesPre f lim req false then 0
            else if lim ≠ 0 then
              clampCpuMaximum (cpuMaximumPreClamp lim host false)
            else 0,
          MemoryLimitInBytes := mem } := by
  unfold windowsContainerResources applyPrecedence resourcesPrePrecedence
  by_cases hS : 0 < cpuSharesPre f lim req false <;>
    by_cases hlim : lim ≠ 0 <;>
      by_cases hmem : mem ≠ 0 <;>
        simp [hS, hlim, hmem, clampCpuMaximum_pos] <;> omega

theorem windowsContainerResources_hyperv_eq (f : Nat → Bool → Nat)
    (req lim mem host : Nat) (hlim : lim ≠ 0) :
    windowsContainerResources f req lim mem host true
      = { CpuShares := cpuSharesPre f lim req true,
          CpuCount := hypervCpuCount lim,
          CpuMaximum := clampCpuMaximum (cpuMaximumPreClamp lim host true),
          MemoryLimitInBytes := mem } := by
  unfold windowsContainerResources applyPrecedence resourcesPrePrecedence
  by_cases hmem : mem ≠ 0 <;> simp [hlim, hmem] <;> omega

theorem windowsContainerResources_CpuShares (f : Nat → Bool → Nat)
    (req lim mem host : Nat) (hv : Bool) :
    (windowsContainerResources f req lim mem host hv).CpuShares
      = cpuSharesPre f lim req hv := by
  cases hv with
  | false => rw [windowsContainerResources_default_eq]
  | true =>
    unfold windowsContainerResources applyPrecedence resourcesPrePrecedence
    by_cases hmem : mem ≠ 0 <;> simp [hmem]

/-! Claim theorems. -/

/-- Claim C1: for every input under Default isolation (any cpuRequestMilli,
cpuLimitMilli, memoryLimitBytes, any host CPU count > 0, and any
millicore-to-shares mapping), at most one of the fields CpuCount, CpuShares,
CpuMaximum in the WindowsContainerResources record returned by
generateWindowsContainerConfig is non-zero. -/
theorem C1_default_at_most_one_cpu_control (f : Nat → Bool → Nat)
    (req lim mem host : Nat) (gmsa : Bool) (sc : SecurityContext)
    (uname : String) (cfg : WindowsContainerConfig) (hhost : 0 < host)
    (hok : generateWindowsContainerConfig f req lim mem host false gmsa sc uname
      = .ok cfg) :
    atMostOneCpuControl cfg.Resources := by
  rw [generate_ok_resources f req lim mem host false gmsa sc uname cfg hok,
    windowsContainerResources_default_eq]
  by_cases hS : 0 < cpuSharesPre f lim req false
  · simp [atMostOneCpuControl, hS]
  · have hS0 : cpuSharesPre f lim req false = 0 := by omega
    simp [atMostOneCpuControl, hS0]

theorem C1_default_at_most_one_cpu_control_witness :
    atMostOneCpuControl
      { CpuShares := 2560, CpuCount := 0, CpuMaximum := 0,
        MemoryLimitInBytes := 0 } :=
  C1_default_at_most_one_cpu_control milliCPUToSharesModel 0 2500 0 4 false
    { } "" { Resources := { CpuShares := 2560 }, SecurityContext := { } }
    (by decide) rfl

/-- Claim C2 counterexample: at cpuLimitMilli = 2500 under HyperV isolation
the code computes cpuCount = 3 and a pre-clamp cpuMaximum of
2500 / 3 * 10000 / 1000 = 8330 (truncating division first), not the
spec-worded exact-product value 2500 * 10000 / (3 * 1000) = 8333. -/
theorem C2_spec_formula_counterexample :
    hypervCpuCount 2500 = 3
    ∧ cpuMaximumPreClamp 2500 4 true = 8330
    ∧ specHypervCpuMaximum 2500 3 = 8333
    ∧ cpuMaximumPreClamp 2500 4 true ≠ specHypervCpuMaximum 2500 3 := by
  decide

/-- Claim C2 (amended): for every cpuLimitMilli > 0 under HyperV isolation,
cpuCount = ceil(cpuLimitMilli/1000) > 0 and the cpuMaximum value before
clamping equals cpuLimitMilli / cpuCount * 10000 / 1000, truncating integer
division evaluated left to right (not the exact rational product followed by
one integer division); in particular cpuLimitMilli = 2500 yields cpuCount = 3
and cpuMaximum = 8330. -/
theorem C2_hyperv_preClamp_formula (lim host : Nat) (hlim : 0 < lim) :
    0 < hypervCpuCount lim
    ∧ lim ≤ 1000 * hypervCpuCount lim
    ∧ 1000 * hypervCpuCount lim < lim + 1000
    ∧ cpuMaximumPreClamp lim host true
        = lim / hypervCpuCount lim * 10000 / 1000 := by
  have hc := hypervCpuCount_pos lim hlim
  have hceil := hypervCpuCount_is_ceil lim hlim
  have hc' : hypervCpuCount lim ≠ 0 := by omega
  refine ⟨hc, hceil.1, hceil.2, ?_⟩
  simp [cpuMaximumPreClamp, hc', hypervCpuMaximum]

theorem C2_hyperv_preClamp_formula_witness :
    0 < hypervCpuCount 2500
    ∧ 2500 ≤ 1000 * hypervCpuCount 2500
    ∧ 1000 * hypervCpuCount 2500 < 2500 + 1000
    ∧ cpuMaximumPreClamp 2500 4 true
        = 2500 / hypervCpuCount 2500 * 10000 / 1000 :=
  C2_hyperv_preClamp_formula 2500 4 (by decide)

/-- Claim C3: for every cpuLimitMilli > 0 under HyperV isolation, the output
CpuCount is ceil(cpuLimitMilli/1000) (characterised by the two inequalities),
and when that count is non-zero the pre-clamp cpuMaximum is overridden with
cpuLimitMilli / cpuCount * 10000 / 1000 evaluated left to right with
truncating division, the output CpuMaximum being the clamp of that value. -/
theorem C3_hyperv_count_and_override (f : Nat → Bool → Nat)
    (req lim mem host : Nat) (gmsa : Bool) (sc : SecurityContext)
    (uname : String) (cfg : WindowsContainerConfig) (hlim : 0 < lim)
    (hok : generateWindowsContainerConfig f req lim mem host true gmsa sc uname
      = .ok cfg) :
    cfg.Resources.CpuCount = hypervCpuCount lim
    ∧ lim ≤ 1000 * hypervCpuCount lim
    ∧ 1000 * hypervCpuCount lim < lim + 1000
    ∧ (hypervCpuCount lim ≠ 0 →
        cpuMaximumPreClamp lim host true
            = lim / hypervCpuCount lim * 10000 / 1000
        ∧ cfg.Resources.CpuMaximum
            = clampCpuMaximum (cpuMaximumPreClamp lim host true)) := by
  have hres := generate_ok_resources f req lim mem host true gmsa sc uname cfg hok
  rw [windowsContainerResources_hyperv_eq f req lim mem host (by omega)] at hres
  have hceil := hypervCpuCount_is_ceil lim hlim
  refine ⟨by rw [hres], hceil.1, hceil.2, fun hc => ⟨?_, by rw [hres]⟩⟩
  simp [cpuMaximumPreClamp, hc, hypervCpuMaximum]

theorem C3_hyperv_count_and_override_witness :
    ({ CpuShares := 2560, CpuCount := 3, CpuMaximum := 8330,
        MemoryLimitInBytes := 0 } : WindowsContainerResources).CpuCount
        = hypervCpuCount 2500
    ∧ cpuMaximumPreClamp 2500 4 true
        = 2500 / hypervCpuCount 2500 * 10000 / 1000
    ∧ ({ CpuShares := 2560, CpuCount := 3, CpuMaximum := 8330,
          MemoryLimitInBytes := 0 } : WindowsContainerResources).CpuMaximum
        = clampCpuMaximum (cpuMaximumPreClamp 2500 4 true) := by
  have h := C3_hyperv_count_and_override milliCPUToSharesModel 0 2500 0 4
    false { } ""
    { Resources := { CpuShares := 2560, CpuCount := 3, CpuMaximum := 8330 },
      SecurityContext := { } }
    (by decide) rfl
  exact ⟨h.1, (h.2.2.2 (by decide)).1, (h.2.2.2 (by decide)).2⟩

/-- Claim C4: for every cpuLimitMilli > 0 and hostCPUCount > 0 under Default
isolation, the cpuMaximum computed (before the precedence step) is
10000 * cpuLimitMilli / hostCPUCount / 1000 in integer arithmetic, then
clamped into [1, 10000] by clampCpuMaximum. -/
theorem C4_default_cpuMaximum_formula (f : Nat → Bool → Nat)
    (req lim host : Nat) (hlim : 0 < lim) (hhost : 0 < host) :
    (resourcesPrePrecedence f req lim host false).CpuMaximum
      = clampCpuMaximum (10000 * lim / host / 1000) := by
  have hlim' : lim ≠ 0 := by omega
  simp [resourcesPrePrecedence, hlim', cpuMaximumPreClamp, cpuMaximumBase]

theorem C4_default_cpuMaximum_formula_witness :
    (resourcesPrePrecedence milliCPUToSharesModel 0 2500 4 false).CpuMaximum
      = clampCpuMaximum (10000 * 2500 / 4 / 1000)
    ∧ clampCpuMaximum (10000 * 2500 / 4 / 1000) = 6250 :=
  ⟨C4_default_cpuMaximum_formula milliCPUToSharesModel 0 2500 4
      (by decide) (by decide),
    by decide⟩

/-- Claim C5: for every cpuLimitMilli > 0 under HyperV isolation the
recomputed cpuMaximum reaches the output unclamped: the output CpuMaximum
equals the Hyper-V recomputation itself, the clamp being the identity on that
value. -/
theorem C5_hyperv_output_unclamped (f : Nat → Bool → Nat)
    (req lim mem host : Nat) (gmsa : Bool) (sc : SecurityContext)
    (uname : String) (cfg : WindowsContainerConfig) (hlim : 0 < lim)
    (hok : generateWindowsContainerConfig f req lim mem host true gmsa sc uname
      = .ok cfg) :
    cfg.Resources.CpuMaximum = hypervCpuMaximum lim (hypervCpuCount lim)
    ∧ clampCpuMaximum (hypervCpuMaximum lim (hypervCpuCount lim))
        = hypervCpuMaximum lim (hypervCpuCount lim) := by
  have hres := generate_ok_resources f req lim mem host true gmsa sc uname cfg hok
  rw [windowsContainerResources_hyperv_eq f req lim mem host (by omega)] at hres
  have hb := hypervCpuMaximum_bounds lim hlim
  have hc' : hypervCpuCount lim ≠ 0 := by
    have := hypervCpuCount_pos lim hlim
    omega
  have hpre : cpuMaximumPreClamp lim host true
      = hypervCpuMaximum lim (hypervCpuCount lim) := by
    simp [cpuMaximumPreClamp, hc']
  have hclamp := clampCpuMaximum_eq_self
    (hypervCpuMaximum lim (hypervCpuCount lim)) (by omega) hb.2
  constructor
  · rw [hres, hpre, hclamp]
  · exact hclamp

theorem C5_hyperv_output_unclamped_witness :
    ({ CpuShares := 2560, CpuCount := 3, CpuMaximum := 8330,
        MemoryLimitInBytes := 0 } : WindowsContainerResources).CpuMaximum
        = hypervCpuMaximum 2500 (hypervCpuCount 2500)
    ∧ clampCpuMaximum (hypervCpuMaximum 2500 (hypervCpuCount 2500))
        = hypervCpuMaximum 2500 (hypervCpuCount 2500) :=
  C5_hyperv_output_unclamped milliCPUToSharesModel 0 2500 0 4 false { } ""
    { Resources := { CpuShares := 2560, CpuCount := 3, CpuMaximum := 8330 },
      SecurityContext := { } }
    (by decide) rfl

/-- Claim C6: generateWindowsContainerConfig returns an error if and only if
the effective security context carries a non-null numeric RunAsUser; that
error is the unsupported-option failure carrying the uid, regardless of every
other input field, and no other input combination, given hostCPUCount > 0,
ever produces an error. -/
theorem C6_error_iff_runAsUser (f : Nat → Bool → Nat) (req lim mem host : Nat)
    (hv gmsa : Bool) (sc : SecurityContext) (uname : String) (uid : Int)
    (hhost : 0 < host) :
    (isErrorResult
        (generateWindowsContainerConfig f req lim mem host hv gmsa sc uname)
          = true
      ↔ sc.RunAsUser ≠ none)
    ∧ (sc.RunAsUser = some uid →
        generateWindowsContainerConfig f req lim mem host hv gmsa sc uname
          = .error (GenError.runAsUserNotSupported uid)) := by
  cases hsc : sc.RunAsUser with
  | none =>
    constructor
    · simp [generateWindowsContainerConfig, resolveSecurityContext, hsc,
        isErrorResult]
    · intro h
      exact Option.noConfusion h
  | some u =>
    constructor
    · simp [generateWindowsContainerConfig, resolveSecurityContext, hsc,
        isErrorResult]
    · intro h
      injection h with h2
      subst h2
      simp [generateWindowsContainerConfig, resolveSecurityContext, hsc]

theorem C6_error_iff_runAsUser_witness :
    (isErrorResult
        (generateWindowsContainerConfig milliCPUToSharesModel 0 2500 0 4
          false false { RunAsUser := some 5 } "")
          = true
      ↔ ({ RunAsUser := some 5 } : SecurityContext).RunAsUser ≠ none)
    ∧ (({ RunAsUser := some 5 } : SecurityContext).RunAsUser = some 5 →
        generateWindowsContainerConfig milliCPUToSharesModel 0 2500 0 4
          false false { RunAsUser := some 5 } ""
          = .error (GenError.runAsUserNotSupported 5)) :=
  C6_error_iff_runAsUser milliCPUToSharesModel 0 2500 0 4 false false
    { RunAsUser := some 5 } "" 5 (by decide)

/-- Claim C7: for every input whose effective security context carries a
Windows-specific RunAsUserName override, the RunAsUsername in the returned
security context equals that override value, regardless of the supplied
generic username. -/
theorem C7_windows_username_override_wins (f : Nat → Bool → Nat)
    (req lim mem host : Nat) (hv gmsa : Bool) (sc : SecurityContext)
    (wo : WindowsSecurityContextOptions) (uname u : String)
    (cfg : WindowsContainerConfig)
    (hwo : sc.WindowsOptions = some wo) (hrun : wo.RunAsUserName = some u)
    (hok : generateWindowsContainerConfig f req lim mem host hv gmsa sc uname
      = .ok cfg) :
    cfg.SecurityContext.RunAsUsername = u := by
  unfold generateWindowsContainerConfig at hok
  cases h : resolveSecurityContext gmsa sc uname with
  | error e => rw [h] at hok; simp at hok
  | ok s =>
    rw [h] at hok
    simp only [Except.ok.injEq] at hok
    subst hok
    unfold resolveSecurityContext at h
    cases hsc : sc.RunAsUser with
    | some uid => rw [hsc] at h; simp at h
    | none =>
      rw [hsc] at h
      simp only [hwo, hrun] at h
      simp only [Except.ok.injEq] at h
      subst h
      rfl

theorem C7_windows_username_override_wins_witness :
    ({ Resources := { },
        SecurityContext := { RunAsUsername := ("bob") } }
          : WindowsContainerConfig).SecurityContext.RunAsUsername
      = ("bob") :=
  C7_windows_username_override_wins milliCPUToSharesModel 0 0 0 4 false false
    { RunAsUser := none,
      WindowsOptions := some { RunAsUserName := some ("bob") } }
    { RunAsUserName := some ("bob") } ("alice") ("bob")
    { Resources := { },
      SecurityContext := { RunAsUsername := ("bob") } }
    rfl rfl rfl

/-- Claim C8 counterexample: with the modelled shares mapping, at
cpuRequestMilli = 0, cpuLimitMilli = 2500, hostCPUCount = 4 under Default
isolation the final output record carries CpuMaximum = 0 (zeroed by the
CpuShares precedence), which does not lie in [1, 10000]. -/
theorem C8_final_range_counterexample :
    generateWindowsContainerConfig milliCPUToSharesModel 0 2500 0 4 false
        false { } ""
      = .ok { Resources := { CpuShares := 2560, CpuMaximum := 0 },
              SecurityContext := { } }
    ∧ ¬ (1 ≤ (0 : Nat)) :=
  ⟨rfl, by decide⟩

/-- Claim C8 (amended): for all cpuLimitMilli > 0 and hostCPUCount > 0 under
Default isolation, the cpuMaximum computed before the precedence step lies in
[1, 10000]; the cpuMaximum of the final output record is either 0 (suppressed
by a higher-priority CPU control) or lies in [1, 10000]. -/
theorem C8_cpuMaximum_range (f : Nat → Bool → Nat) (req lim mem host : Nat)
    (gmsa : Bool) (sc : SecurityContext) (uname : String)
    (cfg : WindowsContainerConfig) (hlim : 0 < lim) (hhost : 0 < host)
    (hok : generateWindowsContainerConfig f req lim mem host false gmsa sc uname
      = .ok cfg) :
    (1 ≤ (resourcesPrePrecedence f req lim host false).CpuMaximum
      ∧ (resourcesPrePrecedence f req lim host false).CpuMaximum ≤ 10000)
    ∧ (cfg.Resources.CpuMaximum = 0
        ∨ (1 ≤ cfg.Resources.CpuMaximum
            ∧ cfg.Resources.CpuMaximum ≤ 10000)) := by
  have hlim' : lim ≠ 0 := by omega
  have hpre : (resourcesPrePrecedence f req lim host false).CpuMaximum
      = clampCpuMaximum (cpuMaximumPreClamp lim host false) := by
    simp [resourcesPrePrecedence, hlim']
  have hmem := clampCpuMaximum_mem (cpuMaximumPreClamp lim host false)
  refine ⟨by rw [hpre]; exact hmem, ?_⟩
  have hres := generate_ok_resources f req lim mem host false gmsa sc uname cfg hok
  rw [windowsContainerResources_default_eq] at hres
  rw [hres]
  by_cases hS : 0 < cpuSharesPre f lim req false
  · left
    simp [hS]
  · right
    simp [hS, hlim']
    exact hmem

theorem C8_cpuMaximum_range_witness :
    (1 ≤ (resourcesPrePrecedence milliCPUToSharesModel 0 2500 4 false).CpuMaximum
      ∧ (resourcesPrePrecedence milliCPUToSharesModel 0 2500 4 false).CpuMaximum
          ≤ 10000)
    ∧ (({ CpuShares := 2560 } : WindowsContainerResources).CpuMaximum = 0
        ∨ (1 ≤ ({ CpuShares := 2560 } : WindowsContainerResources).CpuMaximum
            ∧ ({ CpuShares := 2560 } : WindowsContainerResources).CpuMaximum
                ≤ 10000)) :=
  C8_cpuMaximum_range milliCPUToSharesModel 0 2500 0 4 false { } ""
    { Resources := { CpuShares := 2560, CpuMaximum := 0 },
      SecurityContext := { } }
    (by decide) (by decide) rfl

/-- Claim C9: for every input, the CpuShares value computed before the
precedence step equals the millicore-to-shares mapping applied to
cpuLimitMilli when that result is non-zero, and otherwise the same mapping
applied to cpuRequestMilli; in particular, when cpuLimitMilli = 0 and
cpuRequestMilli = 0 and the mapping sends 0 to 0, the output CpuShares is 0. -/
theorem C9_cpuShares_fallback (f : Nat → Bool → Nat)
    (req lim mem host : Nat) (hv : Bool) :
    (resourcesPrePrecedence f req lim host hv).CpuShares
        = (if f lim hv ≠ 0 then f lim hv else f req hv)
    ∧ (lim = 0 → req = 0 → f 0 hv = 0 →
        (windowsContainerResources f req lim mem host hv).CpuShares = 0) := by
  constructor
  · show cpuSharesPre f lim req hv = _
    unfold cpuSharesPre
    by_cases h : f lim hv = 0 <;> simp [h]
  · intro h1 h2 h3
    subst h1
    subst h2
    rw [windowsContainerResources_CpuShares]
    simp [cpuSharesPre, h3]

theorem C9_cpuShares_fallback_witness :
    (resourcesPrePrecedence milliCPUToSharesModel 0 0 4 false).CpuShares
        = (if milliCPUToSharesModel 0 false ≠ 0 then milliCPUToSharesModel 0 false
           else milliCPUToSharesModel 0 false)
    ∧ (windowsContainerResources milliCPUToSharesModel 0 0 0 4 false).CpuShares
        = 0 := by
  have h := C9_cpuShares_fallback milliCPUToSharesModel 0 0 0 4 false
  exact ⟨h.1, h.2 rfl rfl rfl⟩

/-- Claim C10: for every input under Default isolation, the output CpuCount is
0 (CpuCount is assigned only inside the HyperV branch), so the
highest-priority precedence branch, the one guarded by CpuCount > 0, can
never fire: the precedence step agrees with its variant from which that
branch is deleted. -/
theorem C10_default_count_branch_dead (f : Nat → Bool → Nat)
    (req lim mem host : Nat) (gmsa : Bool) (sc : SecurityContext)
    (uname : String) (cfg : WindowsContainerConfig)
    (hok : generateWindowsContainerConfig f req lim mem host false gmsa sc uname
      = .ok cfg) :
    cfg.Resources.CpuCount = 0
    ∧ (resourcesPrePrecedence f req lim host false).CpuCount = 0
    ∧ applyPrecedence false (resourcesPrePrecedence f req lim host false)
        = applyPrecedenceNoCountBranch false
            (resourcesPrePrecedence f req lim host false) := by
  have hres := generate_ok_resources f req lim mem host false gmsa sc uname cfg hok
  rw [windowsContainerResources_default_eq] at hres
  have hcount : (resourcesPrePrecedence f req lim host false).CpuCount = 0 := by
    simp [resourcesPrePrecedence]
  refine ⟨by rw [hres], hcount, ?_⟩
  unfold applyPrecedence applyPrecedenceNoCountBranch
  simp [hcount]

theorem C10_default_count_branch_dead_witness :
    ({ Resources := { CpuShares := 2560 }, SecurityContext := { } }
        : WindowsContainerConfig).Resources.CpuCount = 0
    ∧ (resourcesPrePrecedence milliCPUToSharesModel 0 2500 4 false).CpuCount = 0
    ∧ applyPrecedence false
          (resourcesPrePrecedence milliCPUToSharesModel 0 2500 4 false)
        = applyPrecedenceNoCountBranch false
            (resourcesPrePrecedence milliCPUToSharesModel 0 2500 4 false) :=
  C10_default_count_branch_dead milliCPUToSharesModel 0 2500 0 4 false { } ""
    { Resources := { CpuShares := 2560 }, SecurityContext := { } } rfl
